import Mathlib

/-!
Shallow embedding of mikeh74/favicon-generator
(src/favicon_generator/converter.py and src/favicon_generator/cli.py),
together with theorems settling the specification claims.

Modelling conventions:
- A decoded PIL image is a record of width, height, colour mode string and an
  abstract pixel lookup function.  Pixel-level work performed inside the
  Pillow library (mode conversion, LANCZOS resampling, ICO/PNG encoding)
  is outside this repository; we model the geometry and the mode, which is
  all the claims refer to.
- Filesystem paths are represented by their final component (the name):
  Python's `Path.suffix` and `Path.with_suffix` only inspect and rewrite the
  name, so directory components are irrelevant to every claim below.
- Machine integers are Nat: image dimensions in Pillow are non-negative
  Python ints and Python's `//` on non-negative ints is Nat division.
- Fallible operations return `Except FaviconError`; the existence of the
  input file and the result of decoding are passed as explicit parameters
  (`inputExists : Bool`, `decoded : Option Image`) since the model has no
  filesystem.
-/

namespace FaviconGen

/-- A decoded raster image: dimensions, colour mode (a Pillow mode string
such as "RGB", "RGBA", "P", "L") and an abstract pixel lookup. -/
structure Image where
  width : Nat
  height : Nat
  mode : String
  pixel : Nat → Nat → Nat

/-- Pillow `Image.crop((left, top, right, bottom))`: the result has width
`right - left`, height `bottom - top`, the same mode, and samples the source
at the translated coordinates.  (All crop boxes produced by this repository
lie inside the source image.) -/
def Image.crop (img : Image) (left top right bottom : Nat) : Image :=
  { width := right - left
    height := bottom - top
    mode := img.mode
    pixel := fun x y => img.pixel (left + x) (top + y) }

/-- Pillow `Image.convert(m)`: changes the colour mode.  The per-pixel
value transformation is internal to the imaging library and not modelled;
every claim about `convert` concerns only the mode. -/
def Image.convert (img : Image) (m : String) : Image :=
  { img with mode := m }

/-- Pillow `Image.resize((w, h), Image.LANCZOS)`: the result has the target
dimensions and the same mode.  The LANCZOS resampling kernel is internal to
the imaging library; the pixel field records a plain sampling stand-in. -/
def pilResize (img : Image) (w h : Nat) : Image :=
  { width := w
    height := h
    mode := img.mode
    pixel := fun x y => img.pixel (x * img.width / w) (y * img.height / h) }

/-- `crop_to_square` from converter.py: identity on square images, otherwise
the centred square crop of side `min(width, height)` with offsets
`left = (width - size) // 2` and `top = (height - size) // 2`. -/
def cropToSquare (image : Image) : Image :=
  let width := image.width
  let height := image.height
  if width = height then image
  else
    let size := min width height
    let left := (width - size) / 2
    let top := (height - size) / 2
    let right := left + size
    let bottom := top + size
    image.crop left top right bottom


/-! Model of Python pathlib suffix handling (CPython `PurePath.suffix` and
`PurePath.with_suffix`), on the name component, at the character-list level. -/

/-- Index of the last '.' in a character list, if any. -/
def lastDotIdx : List Char → Option Nat
  | [] => none
  | c :: rest =>
    match lastDotIdx rest with
    | some i => some (i + 1)
    | none => if c = '.' then some 0 else none

/-- CPython `PurePath.suffix` on a name given as a character list: the part
from the last dot on, empty when there is no dot, when the name starts with
the only dot (hidden files), or when the name ends with the dot. -/
def pySuffixL (cs : List Char) : List Char :=
  match lastDotIdx cs with
  | none => []
  | some i => if 0 < i ∧ i + 1 < cs.length then cs.drop i else []

/-- CPython `PurePath.with_suffix` on a name given as a character list:
appends the new suffix when the name has none, otherwise replaces the old
one; `none` models the ValueError raised on an empty name.  (The suffixes
passed by this repository, ".ico" and ".tar.gz", are always valid.) -/
def pyWithSuffixL (cs suf : List Char) : Option (List Char) :=
  if cs = [] then none
  else if pySuffixL cs = [] then some (cs ++ suf)
  else some (cs.take (cs.length - (pySuffixL cs).length) ++ suf)

/-- `Path.suffix` on a path's name. -/
def pySuffix (s : String) : String :=
  String.mk (pySuffixL s.data)

/-- `Path.with_suffix` on a path's name. -/
def pyWithSuffix (s suf : String) : Option String :=
  (pyWithSuffixL s.data suf.data).map String.mk

/-- Python `str.lower()`, modelled as per-character ASCII lowercasing.
The code only compares lowered strings against the ASCII literals ".jpg",
".jpeg", ".png", ".webp" and ".ico", and no character lowercases across the
ASCII boundary into any of those strings, so this decides every comparison
the code makes exactly as Python's Unicode lowercasing does. -/
def lowerStr (s : String) : String :=
  String.mk (s.data.map Char.toLower)


/-! The converter module itself (src/favicon_generator/converter.py). -/

/-- The errors converter.py can raise: `FileNotFoundError` for a missing
input, `ValueError` for an unsupported extension (carrying the rejected
extension and the supported set that the message interpolates), the
`ValueError` that `Path.with_suffix` raises on an empty name, and decode
failures from the imaging library. -/
inductive FaviconError where
  | inputNotFound (path : String)
  | unsupportedFormat (ext : String) (supported : List String)
  | valueError
  | codecError
  deriving DecidableEq

/-- The supported input formats, `{".jpg", ".jpeg", ".png", ".webp"}` in
converter.py (a Python set; membership is what matters). -/
def supportedFormats : List String := [".jpg", ".jpeg", ".png", ".webp"]

/-- The six ICO sizes of `convert_to_ico`. -/
def icoSizes : List (Nat × Nat) :=
  [(16, 16), (32, 32), (48, 48), (64, 64), (128, 128), (256, 256)]

/-- The three ICO sizes of the bundle's favicon.ico. -/
def bundleIcoSizes : List (Nat × Nat) := [(16, 16), (32, 32), (48, 48)]

/-- `APP_ICON_SIZES` from converter.py: (width, height, filename) triples. -/
def APP_ICON_SIZES : List (Nat × Nat × String) :=
  [ (16, 16, "favicon-16x16.png")
  , (32, 32, "favicon-32x32.png")
  , (48, 48, "favicon-48x48.png")
  , (180, 180, "apple-touch-icon.png")
  , (192, 192, "android-chrome-192x192.png")
  , (512, 512, "android-chrome-512x512.png")
  , (150, 150, "mstile-150x150.png") ]

/-- Colour-mode normalisation shared verbatim by both conversion functions:
`if img.mode not in ("RGB", "RGBA"): img = img.convert("RGBA")`. -/
def normalizeImage (img : Image) : Image :=
  if img.mode = "RGB" ∨ img.mode = "RGBA" then img else img.convert "RGBA"

/-- Result of a successful `convert_to_ico` call: the path written and the
image and size list passed to `img.save(..., format="ICO", sizes=...)`. -/
structure IcoResult where
  outPath : String
  savedImage : Image
  savedSizes : List (Nat × Nat)

/-- Output-extension forcing of `convert_to_ico` (converter.py lines
163-165): keep the path when its suffix is already ".ico" case-insensitively,
otherwise rewrite the suffix to ".ico". -/
def forceIcoPath (outputName : String) : Option String :=
  if lowerStr (pySuffix outputName) = ".ico" then some outputName
  else pyWithSuffix outputName ".ico"

/-- `convert_to_ico(input_path, output_path, crop_square)`.  The filesystem
is abstracted into `inputExists` (result of `input_path.exists()`) and
`decoded` (the image `Image.open` yields, `none` when decoding fails); the
two path arguments are represented by their name components. -/
def convertToIco (inputExists : Bool) (inputName outputName : String)
    (decoded : Option Image) (cropSquare : Bool) : Except FaviconError IcoResult :=
  if inputExists = false then
    Except.error (FaviconError.inputNotFound inputName)
  else if supportedFormats.contains (lowerStr (pySuffix inputName)) = false then
    Except.error (FaviconError.unsupportedFormat (pySuffix inputName) supportedFormats)
  else
    match forceIcoPath outputName with
    | none => Except.error FaviconError.valueError
    | some outPath =>
      match decoded with
      | none => Except.error FaviconError.codecError
      | some img =>
        let im := normalizeImage img
        let im := if cropSquare then cropToSquare im else im
        Except.ok { outPath := outPath, savedImage := im, savedSizes := icoSizes }

/-- Strict lexicographic comparison of character lists by codepoint. -/
def ltCharList : List Char → List Char → Bool
  | [], [] => false
  | [], _ :: _ => true
  | _ :: _, [] => false
  | a :: as, b :: bs =>
    if a.toNat < b.toNat then true
    else if b.toNat < a.toNat then false
    else ltCharList as bs

/-- The lexicographic codepoint order in which Python compares the
(same-directory) paths that `sorted(tmp.iterdir())` sorts. -/
def ltStr (a b : String) : Bool :=
  ltCharList a.data b.data

/-- Insertion of a string into a sorted list. -/
def insertStr (s : String) : List String → List String
  | [] => [s]
  | t :: ts => if ltStr s t then s :: t :: ts else t :: insertStr s ts

/-- Insertion sort on strings, modelling `sorted(tmp.iterdir())` for files
of one directory. -/
def sortStrs : List String → List String
  | [] => []
  | s :: ss => insertStr s (sortStrs ss)

/-- Boolean check that a list of strings is strictly increasing. -/
def chainLtStr : List String → Bool
  | [] => true
  | [_] => true
  | a :: b :: rest => ltStr a b && chainLtStr (b :: rest)

/-- The names written into the temporary directory before archiving, in
creation order: favicon.ico, the `APP_ICON_SIZES` PNGs, site.webmanifest,
browserconfig.xml, README.md.  (`iterdir` enumerates them in an
unspecified order; the code sorts them before adding.) -/
def bundleTmpFiles : List String :=
  "favicon.ico" :: (APP_ICON_SIZES.map (fun t => t.2.2) ++
    ["site.webmanifest", "browserconfig.xml", "README.md"])

/-- Result of a successful `generate_app_icons_bundle` call: archive path,
the sizes of the embedded favicon.ico, the processed source image, the
resized PNG outputs by filename, and the archive entry names (arcnames) in
the order they are added. -/
structure BundleResult where
  outPath : String
  icoSizes : List (Nat × Nat)
  savedImage : Image
  pngOutputs : List (String × Image)
  archiveEntries : List String

/-- Output-extension forcing of `generate_app_icons_bundle` (converter.py
lines 225-226): keep the path when its suffix is already exactly ".gz",
otherwise rewrite the suffix to ".tar.gz". -/
def forceTarGzPath (outputName : String) : Option String :=
  if pySuffix outputName = ".gz" then some outputName
  else pyWithSuffix outputName ".tar.gz"

/-- `generate_app_icons_bundle(input_path, output_path, crop_square)`, with
the same filesystem abstraction as `convertToIco`. -/
def generateAppIconsBundle (inputExists : Bool) (inputName outputName : String)
    (decoded : Option Image) (cropSquare : Bool) : Except FaviconError BundleResult :=
  if inputExists = false then
    Except.error (FaviconError.inputNotFound inputName)
  else if supportedFormats.contains (lowerStr (pySuffix inputName)) = false then
    Except.error (FaviconError.unsupportedFormat (pySuffix inputName) supportedFormats)
  else
    match forceTarGzPath outputName with
    | none => Except.error FaviconError.valueError
    | some outPath =>
      match decoded with
      | none => Except.error FaviconError.codecError
      | some img =>
        let im := normalizeImage img
        let im := if cropSquare then cropToSquare im else im
        Except.ok
          { outPath := outPath
            icoSizes := bundleIcoSizes
            savedImage := im
            pngOutputs := APP_ICON_SIZES.map (fun t => (t.2.2, pilResize im t.1 t.2.1))
            archiveEntries := (sortStrs bundleTmpFiles).map (fun n => "app-icons/" ++ n) }

/-! Projections used to state claims about successful runs without naming a
whole result record. -/

/-- Output path of a successful `convert_to_ico` run. -/
def icoOutPathOf (r : Except FaviconError IcoResult) : Option String :=
  r.toOption.map IcoResult.outPath

/-- ICO size list of a successful `convert_to_ico` run. -/
def icoSavedSizesOf (r : Except FaviconError IcoResult) : Option (List (Nat × Nat)) :=
  r.toOption.map IcoResult.savedSizes

/-- Image encoded by a successful `convert_to_ico` run. -/
def icoSavedImageOf (r : Except FaviconError IcoResult) : Option Image :=
  r.toOption.map IcoResult.savedImage

/-- Archive path of a successful bundle run. -/
def bundleOutPathOf (r : Except FaviconError BundleResult) : Option String :=
  r.toOption.map BundleResult.outPath

/-- favicon.ico size list of a successful bundle run. -/
def bundleIcoSizesOf (r : Except FaviconError BundleResult) : Option (List (Nat × Nat)) :=
  r.toOption.map BundleResult.icoSizes

/-- Processed source image of a successful bundle run. -/
def bundleSavedImageOf (r : Except FaviconError BundleResult) : Option Image :=
  r.toOption.map BundleResult.savedImage

/-- Archive entry names of a successful bundle run. -/
def bundleEntriesOf (r : Except FaviconError BundleResult) : Option (List String) :=
  r.toOption.map BundleResult.archiveEntries

/-! The CLI (src/favicon_generator/cli.py). -/

/-- Outcome of the converter call made inside `main`'s try block:
it returns normally, or raises FileNotFoundError, ValueError, or some
other exception. -/
inductive ConvOutcome where
  | success
  | fileNotFound
  | valueError
  | otherError
  deriving DecidableEq

/-- Exit code of one CLI invocation.  `inputFileExists` is whether
INPUT_FILE exists when the command line is parsed: the argument is declared
`click.Path` with the existence requirement, so a missing path is rejected
by the click library's parameter validation as a usage error, which click
maps to exit code 2 before `main`'s body runs (documented click behaviour;
the library itself is outside this repository).  Otherwise the body runs:
falling off the end exits 0, and each `except` clause calls `sys.exit(1)`. -/
def cliExitCode (inputFileExists : Bool) (outcome : ConvOutcome) : Nat :=
  if inputFileExists = false then 2
  else
    match outcome with
    | ConvOutcome.success => 0
    | ConvOutcome.fileNotFound => 1
    | ConvOutcome.valueError => 1
    | ConvOutcome.otherError => 1

/-! Concrete data used by the witness theorems. -/

/-- A 4x3 landscape RGB image. -/
def demoRGB : Image :=
  { width := 4, height := 3, mode := "RGB", pixel := fun _ _ => 0 }

/-- A 3x3 square RGB image. -/
def demoSquare : Image :=
  { width := 3, height := 3, mode := "RGB", pixel := fun _ _ => 0 }

/-- A 2x2 palette-mode image (mode "P", neither RGB nor RGBA). -/
def demoPalette : Image :=
  { width := 2, height := 2, mode := "P", pixel := fun _ _ => 0 }

/-- The eleven arcnames the specification promises for the bundle archive,
in sorted-filename order (the order `tar.add` receives them). -/
def expectedBundleEntries : List String :=
  [ "app-icons/README.md"
  , "app-icons/android-chrome-192x192.png"
  , "app-icons/android-chrome-512x512.png"
  , "app-icons/apple-touch-icon.png"
  , "app-icons/browserconfig.xml"
  , "app-icons/favicon-16x16.png"
  , "app-icons/favicon-32x32.png"
  , "app-icons/favicon-48x48.png"
  , "app-icons/favicon.ico"
  , "app-icons/mstile-150x150.png"
  , "app-icons/site.webmanifest" ]

/-- The eleven bundle filenames in the order the specification lists them. -/
def claimBundleFilenames : List String :=
  [ "favicon.ico", "favicon-16x16.png", "favicon-32x32.png", "favicon-48x48.png"
  , "apple-touch-icon.png", "android-chrome-192x192.png"
  , "android-chrome-512x512.png", "mstile-150x150.png", "site.webmanifest"
  , "browserconfig.xml", "README.md" ]

/-! Helper lemmas about `cropToSquare`, shared by the claim theorems. -/

theorem cropToSquare_of_eq (img : Image) (h : img.width = img.height) :
    cropToSquare img = img := by
  simp [cropToSquare, h]

theorem cropToSquare_of_ne (img : Image) (h : img.width ≠ img.height) :
    cropToSquare img =
      img.crop ((img.width - min img.width img.height) / 2)
        ((img.height - min img.width img.height) / 2)
        ((img.width - min img.width img.height) / 2 + min img.width img.height)
        ((img.height - min img.width img.height) / 2 + min img.width img.height) := by
  simp [cropToSquare, h]

theorem cropToSquare_width (img : Image) :
    (cropToSquare img).width = min img.width img.height := by
  by_cases h : img.width = img.height
  · rw [cropToSquare_of_eq img h, h, Nat.min_self]
  · rw [cropToSquare_of_ne img h]
    simp [Image.crop]

theorem cropToSquare_height (img : Image) :
    (cropToSquare img).height = min img.width img.height := by
  by_cases h : img.width = img.height
  · rw [cropToSquare_of_eq img h, h, Nat.min_self]
  · rw [cropToSquare_of_ne img h]
    simp [Image.crop]

/-! Facts about the suffix model needed for the extension-forcing claims. -/

theorem lastDotIdx_append_of_right {ys : List Char} (xs : List Char) {j : Nat}
    (h : lastDotIdx ys = some j) :
    lastDotIdx (xs ++ ys) = some (xs.length + j) := by
  induction xs with
  | nil => simpa using h
  | cons c xs ih =>
    simp only [List.cons_append, lastDotIdx, List.append_eq, ih, List.length_cons]
    congr 1
    omega

theorem lastDotIdx_ico : lastDotIdx ".ico".data = some 0 := by decide

/-- Unfolding equation for `pySuffixL` when the last-dot index is known. -/
theorem pySuffixL_some_eq {cs : List Char} {i : Nat} (h : lastDotIdx cs = some i) :
    pySuffixL cs = if 0 < i ∧ i + 1 < cs.length then cs.drop i else [] := by
  unfold pySuffixL
  rw [h]

/-- Appending ".ico" to a non-empty name yields a name whose Python suffix
is exactly ".ico". -/
theorem pySuffixL_append_ico (x : List Char) (hx : x ≠ []) :
    pySuffixL (x ++ ".ico".data) = ".ico".data := by
  have hlast : lastDotIdx (x ++ ".ico".data) = some (x.length + 0) :=
    lastDotIdx_append_of_right x lastDotIdx_ico
  have hxpos : 0 < x.length := List.length_pos.mpr hx
  rw [pySuffixL_some_eq hlast]
  have hcond : 0 < x.length + 0 ∧ x.length + 0 + 1 < (x ++ ".ico".data).length :=
    ⟨by omega, by simp [List.length_append]⟩
  rw [if_pos hcond, Nat.add_zero]
  exact List.drop_left x ".ico".data

/-- Inversion for a non-empty Python suffix: it is the tail of the name from
the last dot, with that dot at a positive index strictly inside the name. -/
theorem pySuffixL_eq_some (cs : List Char) (h : pySuffixL cs ≠ []) :
    ∃ i, lastDotIdx cs = some i ∧ 0 < i ∧ i + 1 < cs.length ∧
      pySuffixL cs = cs.drop i := by
  cases hl : lastDotIdx cs with
  | none =>
    exfalso
    apply h
    unfold pySuffixL
    rw [hl]
  | some i =>
    rw [pySuffixL_some_eq hl] at h ⊢
    by_cases hc : 0 < i ∧ i + 1 < cs.length
    · exact ⟨i, rfl, hc.1, hc.2, if_pos hc⟩
    · rw [if_neg hc] at h; simp at h

/-- `with_suffix` always produces a name of the form `stem ++ suffix` with a
non-empty stem. -/
theorem pyWithSuffixL_eq (cs suf out : List Char)
    (h : pyWithSuffixL cs suf = some out) :
    ∃ x, x ≠ [] ∧ out = x ++ suf := by
  unfold pyWithSuffixL at h
  by_cases hcs : cs = []
  · rw [if_pos hcs] at h; simp at h
  · rw [if_neg hcs] at h
    by_cases hold : pySuffixL cs = []
    · rw [if_pos hold] at h
      exact ⟨cs, hcs, by simpa using h.symm⟩
    · rw [if_neg hold] at h
      refine ⟨cs.take (cs.length - (pySuffixL cs).length), ?_, by simpa using h.symm⟩
      obtain ⟨i, _, hipos, hilt, hdrop⟩ := pySuffixL_eq_some cs hold
      have hlen : (pySuffixL cs).length = cs.length - i := by
        rw [hdrop]; simp
      have hile : i ≤ cs.length := Nat.le_of_lt (by omega)
      have : cs.length - (pySuffixL cs).length = i := by omega
      rw [this]
      intro hnil
      have := congrArg List.length hnil
      simp [Nat.min_eq_left hile] at this
      omega

/-! Helper lemmas about the extension-forcing helpers and the success
shapes of the two conversion functions. -/

theorem string_data_ne_nil {s : String} (h : s ≠ "") : s.data ≠ [] := by
  intro hd
  apply h
  have hs : s = String.mk s.data := rfl
  rw [hs, hd]

theorem pyWithSuffix_isSome (s suf : String) (h : s ≠ "") :
    ∃ p, pyWithSuffix s suf = some p := by
  unfold pyWithSuffix pyWithSuffixL
  rw [if_neg (string_data_ne_nil h)]
  by_cases hold : pySuffixL s.data = []
  · rw [if_pos hold]
    exact ⟨_, rfl⟩
  · rw [if_neg hold]
    exact ⟨_, rfl⟩

theorem forceIcoPath_isSome (out : String) (h : out ≠ "") :
    ∃ p, forceIcoPath out = some p := by
  unfold forceIcoPath
  by_cases hico : lowerStr (pySuffix out) = ".ico"
  · exact ⟨out, if_pos hico⟩
  · rw [if_neg hico]
    exact pyWithSuffix_isSome out ".ico" h

theorem forceTarGzPath_isSome (out : String) (h : out ≠ "") :
    ∃ p, forceTarGzPath out = some p := by
  unfold forceTarGzPath
  by_cases hgz : pySuffix out = ".gz"
  · exact ⟨out, if_pos hgz⟩
  · rw [if_neg hgz]
    exact pyWithSuffix_isSome out ".tar.gz" h

/-- Any path produced by `forceIcoPath` has extension ".ico" up to case. -/
theorem forceIcoPath_suffix {out p : String} (hp : forceIcoPath out = some p) :
    lowerStr (pySuffix p) = ".ico" := by
  unfold forceIcoPath at hp
  by_cases hico : lowerStr (pySuffix out) = ".ico"
  · rw [if_pos hico] at hp
    cases hp
    exact hico
  · rw [if_neg hico] at hp
    unfold pyWithSuffix at hp
    cases hw : pyWithSuffixL out.data ".ico".data with
    | none => rw [hw] at hp; simp at hp
    | some l =>
      rw [hw] at hp
      have hp2 : some (String.mk l) = some p := hp
      injection hp2 with hp2
      obtain ⟨x, hx, hl⟩ := pyWithSuffixL_eq out.data ".ico".data l hw
      subst hl
      rw [← hp2]
      show lowerStr (String.mk (pySuffixL (x ++ ".ico".data))) = ".ico"
      rw [pySuffixL_append_ico x hx]
      decide

theorem forceTarGzPath_of_gz {out : String} (h : pySuffix out = ".gz") :
    forceTarGzPath out = some out := by
  unfold forceTarGzPath
  rw [if_pos h]

/-- When the supplied suffix is not ".gz", the forced path ends in ".tar.gz". -/
theorem forceTarGzPath_endsWith {out p : String} (hgz : ¬ pySuffix out = ".gz")
    (hp : forceTarGzPath out = some p) : ".tar.gz".data <:+ p.data := by
  unfold forceTarGzPath at hp
  rw [if_neg hgz] at hp
  unfold pyWithSuffix at hp
  cases hw : pyWithSuffixL out.data ".tar.gz".data with
  | none => rw [hw] at hp; simp at hp
  | some l =>
    rw [hw] at hp
    have hp2 : some (String.mk l) = some p := hp
    injection hp2 with hp2
    obtain ⟨x, _, hl⟩ := pyWithSuffixL_eq out.data ".tar.gz".data l hw
    subst hl
    rw [← hp2]
    exact List.suffix_append x ".tar.gz".data

/-- Success shape of `convertToIco` on a validated input. -/
theorem convertToIco_valid {nm : String} (out : String) (img : Image) (crop : Bool)
    (hext : supportedFormats.contains (lowerStr (pySuffix nm)) = true)
    {p : String} (hp : forceIcoPath out = some p) :
    convertToIco true nm out (some img) crop =
      Except.ok
        { outPath := p
          savedImage := if crop then cropToSquare (normalizeImage img) else normalizeImage img
          savedSizes := icoSizes } := by
  unfold convertToIco
  rw [if_neg (by simp), if_neg (by rw [hext]; simp), hp]

/-- Success shape of `generateAppIconsBundle` on a validated input. -/
theorem generateAppIconsBundle_valid {nm : String} (out : String) (img : Image) (crop : Bool)
    (hext : supportedFormats.contains (lowerStr (pySuffix nm)) = true)
    {p : String} (hp : forceTarGzPath out = some p) :
    generateAppIconsBundle true nm out (some img) crop =
      Except.ok
        { outPath := p
          icoSizes := bundleIcoSizes
          savedImage := if crop then cropToSquare (normalizeImage img) else normalizeImage img
          pngOutputs := APP_ICON_SIZES.map (fun t =>
            (t.2.2, pilResize (if crop then cropToSquare (normalizeImage img) else normalizeImage img) t.1 t.2.1))
          archiveEntries := (sortStrs bundleTmpFiles).map (fun n => "app-icons/" ++ n) } := by
  unfold generateAppIconsBundle
  rw [if_neg (by simp), if_neg (by rw [hext]; simp), hp]

/-! The claim theorems. -/

/-- C1: for every decoded image, crop_to_square returns the image unchanged
when width = height; otherwise it returns the centred square region of side
size = min(width, height) with offsets left = (width-size)//2 and
top = (height-size)//2 (integer floor division), so the result is always a
square of side min(width, height), and the operation is total: it never
fails. -/
theorem claim_C1_crop_to_square (img : Image) :
    (img.width = img.height → cropToSquare img = img)
    ∧ (img.width ≠ img.height →
        cropToSquare img =
          img.crop ((img.width - min img.width img.height) / 2)
            ((img.height - min img.width img.height) / 2)
            ((img.width - min img.width img.height) / 2 + min img.width img.height)
            ((img.height - min img.width img.height) / 2 + min img.width img.height))
    ∧ (cropToSquare img).width = min img.width img.height
    ∧ (cropToSquare img).height = min img.width img.height :=
  ⟨cropToSquare_of_eq img, cropToSquare_of_ne img,
   cropToSquare_width img, cropToSquare_height img⟩

/-- Witness for C1 at the 3x3 square image and the 4x3 landscape image. -/
theorem claim_C1_crop_to_square_witness :
    cropToSquare demoSquare = demoSquare
    ∧ cropToSquare demoRGB =
        demoRGB.crop ((demoRGB.width - min demoRGB.width demoRGB.height) / 2)
          ((demoRGB.height - min demoRGB.width demoRGB.height) / 2)
          ((demoRGB.width - min demoRGB.width demoRGB.height) / 2 +
            min demoRGB.width demoRGB.height)
          ((demoRGB.height - min demoRGB.width demoRGB.height) / 2 +
            min demoRGB.width demoRGB.height)
    ∧ (cropToSquare demoRGB).width = min demoRGB.width demoRGB.height :=
  ⟨(claim_C1_crop_to_square demoSquare).1 rfl,
   (claim_C1_crop_to_square demoRGB).2.1 (by decide),
   (claim_C1_crop_to_square demoRGB).2.2.1⟩

/-- C10: crop_to_square is idempotent: the first application always yields
an image with width = height, so a second application takes the identity
branch. -/
theorem claim_C10_crop_idempotent (img : Image) :
    cropToSquare (cropToSquare img) = cropToSquare img :=
  cropToSquare_of_eq (cropToSquare img)
    (by rw [cropToSquare_width, cropToSquare_height])

/-- C2: every successful bundle run (supported input extension, non-empty
output path, any decoded image, crop on or off) produces an archive with
exactly 11 entries, all under the single top-level directory "app-icons/",
whose filenames are exactly the eleven the claim lists, added in
sorted-filename order, regardless of the source image's dimensions. -/
theorem claim_C2_bundle_entries (nm out : String) (img : Image) (crop : Bool)
    (hext : supportedFormats.contains (lowerStr (pySuffix nm)) = true)
    (hout : out ≠ "") :
    bundleEntriesOf (generateAppIconsBundle true nm out (some img) crop) =
      some expectedBundleEntries
    ∧ expectedBundleEntries.length = 11
    ∧ expectedBundleEntries.all (fun e => "app-icons/".data.isPrefixOf e.data) = true
    ∧ expectedBundleEntries.Perm (claimBundleFilenames.map (fun n => "app-icons/" ++ n))
    ∧ chainLtStr expectedBundleEntries = true := by
  obtain ⟨p, hp⟩ := forceTarGzPath_isSome out hout
  refine ⟨?_, by decide, by decide, by decide, by decide⟩
  rw [bundleEntriesOf, generateAppIconsBundle_valid out img crop hext hp]
  rfl

/-- Witness for C2 at a PNG input, output name "o", crop off. -/
theorem claim_C2_bundle_entries_witness :
    bundleEntriesOf (generateAppIconsBundle true "a.png" "o" (some demoRGB) false) =
      some expectedBundleEntries
    ∧ expectedBundleEntries.length = 11 :=
  ⟨(claim_C2_bundle_entries "a.png" "o" demoRGB false (by decide) (by decide)).1,
   (claim_C2_bundle_entries "a.png" "o" demoRGB false (by decide) (by decide)).2.1⟩

/-- C3: every successful run of convert_to_ico encodes its icon container
with exactly the six sizes 16, 32, 48, 64, 128, 256, and every successful
bundle run encodes favicon.ico with exactly the three sizes 16, 32, 48. -/
theorem claim_C3_ico_size_sets (nm out : String) (img : Image) (crop : Bool)
    (hext : supportedFormats.contains (lowerStr (pySuffix nm)) = true)
    (hout : out ≠ "") :
    icoSavedSizesOf (convertToIco true nm out (some img) crop) =
      some [(16, 16), (32, 32), (48, 48), (64, 64), (128, 128), (256, 256)]
    ∧ bundleIcoSizesOf (generateAppIconsBundle true nm out (some img) crop) =
      some [(16, 16), (32, 32), (48, 48)] := by
  obtain ⟨p, hp⟩ := forceIcoPath_isSome out hout
  obtain ⟨q, hq⟩ := forceTarGzPath_isSome out hout
  constructor
  · rw [icoSavedSizesOf, convertToIco_valid out img crop hext hp]
    rfl
  · rw [bundleIcoSizesOf, generateAppIconsBundle_valid out img crop hext hq]
    rfl

/-- Witness for C3 at a PNG input, output name "o", crop off. -/
theorem claim_C3_ico_size_sets_witness :
    icoSavedSizesOf (convertToIco true "a.png" "o" (some demoRGB) false) =
      some [(16, 16), (32, 32), (48, 48), (64, 64), (128, 128), (256, 256)]
    ∧ bundleIcoSizesOf (generateAppIconsBundle true "a.png" "o" (some demoRGB) false) =
      some [(16, 16), (32, 32), (48, 48)] :=
  claim_C3_ico_size_sets "a.png" "o" demoRGB false (by decide) (by decide)

/-- C4: with a missing input file, both functions fail with the
input-not-found error naming the missing path, whatever the extension,
output path, decode result or crop flag: the existence check comes before
every other validation, in particular before the extension check. -/
theorem claim_C4_missing_input (nm out : String) (decoded : Option Image) (crop : Bool) :
    convertToIco false nm out decoded crop =
      Except.error (FaviconError.inputNotFound nm)
    ∧ generateAppIconsBundle false nm out decoded crop =
      Except.error (FaviconError.inputNotFound nm) :=
  ⟨rfl, rfl⟩

/-- C5: with an existing input whose lowered extension is outside
{.jpg, .jpeg, .png, .webp}, both functions fail with the unsupported-format
error carrying the rejected extension and the supported set, before any
decode is consulted (the decode result is universally quantified, including
failure); with a supported extension neither function ever returns an
unsupported-format error. -/
theorem claim_C5_unsupported_format (nm out : String) (decoded : Option Image) (crop : Bool) :
    (supportedFormats.contains (lowerStr (pySuffix nm)) = false →
      convertToIco true nm out decoded crop =
        Except.error (FaviconError.unsupportedFormat (pySuffix nm) supportedFormats)
      ∧ generateAppIconsBundle true nm out decoded crop =
        Except.error (FaviconError.unsupportedFormat (pySuffix nm) supportedFormats))
    ∧ (supportedFormats.contains (lowerStr (pySuffix nm)) = true →
      (∀ e s, convertToIco true nm out decoded crop ≠
        Except.error (FaviconError.unsupportedFormat e s))
      ∧ (∀ e s, generateAppIconsBundle true nm out decoded crop ≠
        Except.error (FaviconError.unsupportedFormat e s))) := by
  constructor
  · intro h
    constructor
    · unfold convertToIco
      rw [if_neg (by simp), if_pos h]
    · unfold generateAppIconsBundle
      rw [if_neg (by simp), if_pos h]
  · intro h
    constructor
    · intro e s
      unfold convertToIco
      rw [if_neg (by simp), if_neg (by rw [h]; simp)]
      cases hfi : forceIcoPath out with
      | none => simp
      | some p =>
        cases decoded with
        | none => simp
        | some img => simp
    · intro e s
      unfold generateAppIconsBundle
      rw [if_neg (by simp), if_neg (by rw [h]; simp)]
      cases hfg : forceTarGzPath out with
      | none => simp
      | some p =>
        cases decoded with
        | none => simp
        | some img => simp

/-- Witness for C5 at a .gif input (rejected) and a .PNG input (accepted
case-insensitively). -/
theorem claim_C5_unsupported_format_witness :
    convertToIco true "a.gif" "o" none false =
      Except.error (FaviconError.unsupportedFormat ".gif" supportedFormats)
    ∧ generateAppIconsBundle true "a.gif" "o" none false =
      Except.error (FaviconError.unsupportedFormat ".gif" supportedFormats)
    ∧ convertToIco true "a.PNG" "o" none false ≠
      Except.error (FaviconError.unsupportedFormat ".PNG" supportedFormats)
    ∧ generateAppIconsBundle true "a.PNG" "o" none false ≠
      Except.error (FaviconError.unsupportedFormat ".PNG" supportedFormats) := by
  have h1 := (claim_C5_unsupported_format "a.gif" "o" none false).1 (by decide)
  have h2 := (claim_C5_unsupported_format "a.PNG" "o" none false).2 (by decide)
  exact ⟨h1.1, h1.2, h2.1 ".PNG" supportedFormats, h2.2 ".PNG" supportedFormats⟩

/-- C6 counterexample: with the valid input "icon.png" and the output path
"foo.gz", the bundle function writes to "foo.gz" itself, which does not end
with ".tar.gz"; so the written path is not always forced to end in
".tar.gz". -/
theorem claim_C6_counterexample :
    bundleOutPathOf (generateAppIconsBundle true "icon.png" "foo.gz" (some demoRGB) false) =
      some "foo.gz"
    ∧ ¬ (".tar.gz".data <:+ "foo.gz".data) :=
  ⟨by decide, by decide⟩

/-- C6 (amended): on every successful bundle run, when the supplied output
path's final suffix is exactly ".gz" the path is used unchanged; otherwise
its final suffix is replaced with ".tar.gz", so the written path ends with
".tar.gz". -/
theorem claim_C6_bundle_output_path (nm out : String) (img : Image) (crop : Bool)
    (hext : supportedFormats.contains (lowerStr (pySuffix nm)) = true)
    (hout : out ≠ "") :
    (pySuffix out = ".gz" →
      bundleOutPathOf (generateAppIconsBundle true nm out (some img) crop) = some out)
    ∧ (pySuffix out ≠ ".gz" →
      ∀ p, bundleOutPathOf (generateAppIconsBundle true nm out (some img) crop) = some p →
        ".tar.gz".data <:+ p.data) := by
  constructor
  · intro hgz
    rw [bundleOutPathOf,
      generateAppIconsBundle_valid out img crop hext (forceTarGzPath_of_gz hgz)]
    rfl
  · intro hgz p hp
    obtain ⟨q, hq⟩ := forceTarGzPath_isSome out hout
    rw [bundleOutPathOf, generateAppIconsBundle_valid out img crop hext hq] at hp
    have hp2 : some q = some p := hp
    injection hp2 with hp2
    subst hp2
    exact forceTarGzPath_endsWith hgz hq

/-- Witness for C6 (amended) at the kept output "icons.gz" and the forced
output "o" (written as "o.tar.gz"). -/
theorem claim_C6_bundle_output_path_witness :
    bundleOutPathOf (generateAppIconsBundle true "a.png" "icons.gz" (some demoRGB) false) =
      some "icons.gz"
    ∧ ".tar.gz".data <:+ ("o.tar.gz" : String).data :=
  ⟨(claim_C6_bundle_output_path "a.png" "icons.gz" demoRGB false (by decide)
      (by decide)).1 (by decide),
   (claim_C6_bundle_output_path "a.png" "o" demoRGB false (by decide)
      (by decide)).2 (by decide) "o.tar.gz" (by decide)⟩

/-- C7: the file written by a successful convert_to_ico run always carries
the ".ico" extension (the guard compares case-insensitively, so a supplied
".ICO"-style extension is kept; lowered, the written extension is always
".ico"). -/
theorem claim_C7_ico_output_path (nm out : String) (img : Image) (crop : Bool)
    (hext : supportedFormats.contains (lowerStr (pySuffix nm)) = true)
    (hout : out ≠ "") :
    ∀ p, icoOutPathOf (convertToIco true nm out (some img) crop) = some p →
      lowerStr (pySuffix p) = ".ico" := by
  intro p hp
  obtain ⟨q, hq⟩ := forceIcoPath_isSome out hout
  rw [icoOutPathOf, convertToIco_valid out img crop hext hq] at hp
  have hp2 : some q = some p := hp
  injection hp2 with hp2
  subst hp2
  exact forceIcoPath_suffix hq

/-- Witness for C7 at a forced output ("o.png" written as "o.ico") and a
kept upper-case output ("out.ICO"). -/
theorem claim_C7_ico_output_path_witness :
    lowerStr (pySuffix "o.ico") = ".ico" ∧ lowerStr (pySuffix "out.ICO") = ".ico" :=
  ⟨claim_C7_ico_output_path "a.png" "o.png" demoRGB false (by decide) (by decide)
      "o.ico" (by decide),
   claim_C7_ico_output_path "a.png" "out.ICO" demoRGB false (by decide) (by decide)
      "out.ICO" (by decide)⟩

/-- C8: in both functions, a decoded image whose mode is neither "RGB" nor
"RGBA" is converted to "RGBA", and an image already in "RGB" or "RGBA" is
passed through unchanged; the conversion happens before cropping and
encoding: the image each function encodes is the optionally-cropped
normalised image. -/
theorem claim_C8_mode_normalization (img : Image) :
    ((img.mode = "RGB" ∨ img.mode = "RGBA") → normalizeImage img = img)
    ∧ (¬(img.mode = "RGB" ∨ img.mode = "RGBA") → (normalizeImage img).mode = "RGBA")
    ∧ (∀ nm out crop, supportedFormats.contains (lowerStr (pySuffix nm)) = true →
        out ≠ "" →
        icoSavedImageOf (convertToIco true nm out (some img) crop) =
          some (if crop then cropToSquare (normalizeImage img) else normalizeImage img)
        ∧ bundleSavedImageOf (generateAppIconsBundle true nm out (some img) crop) =
          some (if crop then cropToSquare (normalizeImage img) else normalizeImage img)) := by
  refine ⟨?_, ?_, ?_⟩
  · intro h
    unfold normalizeImage
    rw [if_pos h]
  · intro h
    unfold normalizeImage
    rw [if_neg h]
    rfl
  · intro nm out crop hext hout
    obtain ⟨p, hp⟩ := forceIcoPath_isSome out hout
    obtain ⟨q, hq⟩ := forceTarGzPath_isSome out hout
    constructor
    · rw [icoSavedImageOf, convertToIco_valid out img crop hext hp]
      rfl
    · rw [bundleSavedImageOf, generateAppIconsBundle_valid out img crop hext hq]
      rfl

/-- Witness for C8 at an RGB image (passed through), a palette image
(converted to RGBA), and a full run of both functions on the RGB image. -/
theorem claim_C8_mode_normalization_witness :
    normalizeImage demoRGB = demoRGB
    ∧ (normalizeImage demoPalette).mode = "RGBA"
    ∧ icoSavedImageOf (convertToIco true "a.png" "o" (some demoRGB) false) = some demoRGB
    ∧ bundleSavedImageOf (generateAppIconsBundle true "a.png" "o" (some demoRGB) false) =
        some demoRGB := by
  have h1 := (claim_C8_mode_normalization demoRGB).1 (Or.inl rfl)
  have h2 := (claim_C8_mode_normalization demoPalette).2.1 (by decide)
  have h3 := (claim_C8_mode_normalization demoRGB).2.2 "a.png" "o" false
    (by decide) (by decide)
  exact ⟨h1, h2, h3.1, h3.2⟩

/-- C9 counterexample: an invocation whose input file is missing exits with
the argument parser's usage-error code 2, not 1 as the claim states. -/
theorem claim_C9_counterexample :
    cliExitCode false ConvOutcome.fileNotFound = 2 ∧ (2 : Nat) ≠ 1 := by
  decide

/-- C9 (amended): the CLI exits 0 on success and 1 on any failure raised by
the conversion body (missing input surviving past argument validation,
unsupported format, or unexpected error); an input file already missing at
invocation is rejected by the argument parser's existence validation with
exit code 2. -/
theorem claim_C9_cli_exit_codes (o : ConvOutcome) :
    cliExitCode true o = (if o = ConvOutcome.success then 0 else 1)
    ∧ cliExitCode false o = 2 := by
  cases o <;> exact ⟨rfl, rfl⟩

end FaviconGen
